import Mathlib

/-!
Shallow embedding of the chessboard-vision / robot-arm pipeline:

* `image_to_fen` from `computer_vision_files/image_to_fen.py` (the revised
  variant, which the design document treats as canonical): detection scan,
  board localisation, square mapping into a 9×9 NumPy buffer, and the
  run-length FEN serializer;
* `get_move_coordinates` / `execute_robot_move` from
  `robot_controller/robot_control.py`;
* the per-frame pipeline pass of `main.py`.

Modelling choices. Detector pixel coordinates are exact rationals (the
design fixes the numeric semantics as plain arithmetic with truncation
toward zero, so exact rationals embed the float computations on the inputs
of interest). Python's `int()` on a number is truncation toward zero
(`pyTrunc`). The NumPy 9×9 buffer is modelled with explicit NumPy index
resolution: indices 0..8 are direct, −9..−1 wrap around by +9, and anything
else is an IndexError (modelled as `Except.error`). Python strings are Lean
`String`s; the exact wording of error messages is kept where the source
fixes it, and a generic message stands in for NumPy's IndexError text.
-/

attribute [local semireducible] Rat.mul Rat.add Rat.sub Rat.inv

/-- Python `int()` applied to a (real-valued) number: truncation toward zero
(floor for non-negative values, `-⌊-q⌋` for negative ones). Stated with
`Rat.floor` so that it evaluates by computation. -/
def pyTrunc (q : ℚ) : ℤ := if q < 0 then -((-q).floor) else q.floor

/-- One detector output: an axis-aligned bounding box and a class label. -/
structure Detection where
  xMin : ℚ
  yMin : ℚ
  xMax : ℚ
  yMax : ℚ
  label : String
  deriving DecidableEq

/-- Center abscissa of a detection box, as computed in the piece branch of the
detection scan: `(x_min + x_max) / 2`. -/
def centerX (d : Detection) : ℚ := (d.xMin + d.xMax) / 2

/-- Center ordinate of a detection box: `(y_min + y_max) / 2`. -/
def centerY (d : Detection) : ℚ := (d.yMin + d.yMax) / 2

/-- Board frame: top-left origin and per-square dimensions (an eighth of the
board box's width and height). -/
structure BoardFrame where
  originX : ℚ
  originY : ℚ
  squareW : ℚ
  squareH : ℚ
  deriving DecidableEq

/-- Loop body of the detection scan in `image_to_fen`: a box labelled
`"Chess_Board"` overwrites the stored board tuple `(x, y, w, h)`; any other
box appends its center point and label to the piece list. -/
def extractStep (st : Option (ℚ × ℚ × ℚ × ℚ) × List (ℚ × ℚ × String)) (d : Detection) :
    Option (ℚ × ℚ × ℚ × ℚ) × List (ℚ × ℚ × String) :=
  if d.label = "Chess_Board" then
    (some (d.xMin, d.yMin, d.xMax - d.xMin, d.yMax - d.yMin), st.2)
  else
    (st.1, st.2 ++ [(centerX d, centerY d, d.label)])

/-- The detection scan of `image_to_fen`: fold `extractStep` over the
detections, starting from no board and no pieces. -/
def extractDetections (dets : List Detection) :
    Option (ℚ × ℚ × ℚ × ℚ) × List (ℚ × ℚ × String) :=
  dets.foldl extractStep (none, [])

/-- The fixed label-to-FEN-symbol table `fen_mapping` of the source. -/
def fenMapping (label : String) : Option String :=
  if label = "Black_Pawn" then some "p"
  else if label = "Black_Rook" then some "r"
  else if label = "Black_Knight" then some "n"
  else if label = "Black_Bishop" then some "b"
  else if label = "Black_Queen" then some "q"
  else if label = "Black_King" then some "k"
  else if label = "White_Pawn" then some "P"
  else if label = "White_Rook" then some "R"
  else if label = "White_Knight" then some "N"
  else if label = "White_Bishop" then some "B"
  else if label = "White_Queen" then some "Q"
  else if label = "White_King" then some "K"
  else none

/-- The 9×9 NumPy buffer `board` (row and column 0 are unused padding; the
chess grid lives at indices 1..8). Cells hold `""` or a FEN symbol. -/
def Board := Fin 9 → Fin 9 → String

/-- `np.full((9, 9), "")`. -/
def emptyBoard : Board := fun _ _ => ""

/-- Write one cell of the buffer. -/
def setCell (b : Board) (r c : Fin 9) (s : String) : Board :=
  fun i j => if i = r ∧ j = c then s else b i j

/-- NumPy index resolution on an axis of size 9: 0..8 are taken directly,
−9..−1 wrap around to `i + 9`, and anything else is an IndexError. -/
def npResolve (i : ℤ) : Option (Fin 9) :=
  if h : 0 ≤ i ∧ i < 9 then some ⟨i.toNat, by omega⟩
  else if h2 : -9 ≤ i ∧ i < 0 then some ⟨(i + 9).toNat, by omega⟩
  else none

/-- `board[r, c] = s` with NumPy semantics: both indices are resolved
(with negative wrap-around); an unresolvable index raises IndexError. -/
def npSet (b : Board) (r c : ℤ) (s : String) : Except String Board :=
  match npResolve r, npResolve c with
  | some ri, some ci => .ok (setCell b ri ci s)
  | _, _ => .error "IndexError: index out of bounds for axis with size 9"

/-- `row_index = 8 - int((y_c - y_b) / h_s)`. -/
def rowIndex (bf : BoardFrame) (cy : ℚ) : ℤ :=
  8 - pyTrunc ((cy - bf.originY) / bf.squareH)

/-- `col_index = int((x_c - x_b) / w_s) + 1`. -/
def colIndex (bf : BoardFrame) (cx : ℚ) : ℤ :=
  pyTrunc ((cx - bf.originX) / bf.squareW) + 1

/-- One iteration of the square-mapper loop: compute row and column indices,
then write the FEN symbol if the label is in the table (otherwise do
nothing). A piece is `(x_center, y_center, label)`. -/
def squareStep (bf : BoardFrame) (b : Board) (p : ℚ × ℚ × String) : Except String Board :=
  let row := rowIndex bf p.2.1
  let col := colIndex bf p.1
  match fenMapping p.2.2 with
  | some sym => npSet b row col sym
  | none => .ok b

/-- The square-mapper loop over all detected pieces. -/
def placePieces (bf : BoardFrame) (pieces : List (ℚ × ℚ × String)) (b : Board) :
    Except String Board :=
  pieces.foldlM (squareStep bf) b

/-- Inner-loop body of the serializer: run-length state is
`(empty_count, fen_row)`. -/
def runStep (st : ℕ × String) (cell : String) : ℕ × String :=
  if cell = "" then (st.1 + 1, st.2)
  else if st.1 > 0 then (0, st.2 ++ toString st.1 ++ cell)
  else (0, st.2 ++ cell)

/-- The columns the serializer visits, left to right (file a to h). -/
def fileCols : List (Fin 9) := [1, 2, 3, 4, 5, 6, 7, 8]

/-- The cells of one buffer row at columns 1..8, in visiting order. -/
def rowCells (b : Board) (row : Fin 9) : List String := fileCols.map (b row)

/-- One rank's serialization: fold `runStep` over the row's cells, then flush
a trailing run-length if positive. -/
def rankString (b : Board) (row : Fin 9) : String :=
  let st := (rowCells b row).foldl runStep (0, "")
  if st.1 > 0 then st.2 ++ toString st.1 else st.2

/-- The rows the serializer visits: rank 8 (top) down to rank 1 (bottom). -/
def rankRows : List (Fin 9) := [8, 7, 6, 5, 4, 3, 2, 1]

/-- The list `fen_rows` of all eight rank strings. -/
def boardToFenRows (b : Board) : List String := rankRows.map (rankString b)

/-- `"/".join(fen_rows)`: the board field of the FEN string. -/
def fenBody (b : Board) : String := String.intercalate "/" (boardToFenRows b)

/-- The full serializer output: board field, a space, the active color
character, and the fixed trailer `" - - 0 1"`. -/
def fenOfBoard (b : Board) (activeColor : Char) : String :=
  fenBody b ++ " " ++ String.mk [activeColor] ++ " - - 0 1"

/-- `image_to_fen` on a detection list: scan detections, fail if no board box
was seen, otherwise derive the board frame, run the square mapper, and
serialize. -/
def image_to_fen (dets : List Detection) (activeColor : Char) : Except String String :=
  match extractDetections dets with
  | (none, _) => .error "Chessboard not detected in the image. Cannot generate FEN."
  | (some (xb, yb, wb, hb), pieces) =>
    match placePieces ⟨xb, yb, wb / 8, hb / 8⟩ pieces emptyBoard with
    | .error e => .error e
    | .ok board => .ok (fenOfBoard board activeColor)

/-- The board frame derived from a board-labelled detection box. -/
def frameOfDet (d : Detection) : BoardFrame :=
  ⟨d.xMin, d.yMin, (d.xMax - d.xMin) / 8, (d.yMax - d.yMin) / 8⟩

/-- Square Mapper followed by the serializer, for a fixed frame and piece
list (the part of `image_to_fen` after board localisation). -/
def mapAndSerialize (bf : BoardFrame) (pieces : List (ℚ × ℚ × String))
    (activeColor : Char) : Except String String :=
  (placePieces bf pieces emptyBoard).map (fun b => fenOfBoard b activeColor)

/-! ### Robot controller (`robot_controller/robot_control.py`) -/

/-- One row of the placement CSV: columns `Col`, `Row`, `Pick`, `Place`. -/
structure CsvRow where
  col : Char
  row : ℕ
  pick : String
  place : String
  deriving DecidableEq

/-- The constant `HOME_COORDINATE` of `RobotController`. -/
def HOME_COORDINATE : String := "[0.45; 0; 0.49]"

/-- Python `int()` applied to a one-character string: the digit's value, or a
ValueError for a non-digit character. -/
def pyIntOfChar (c : Char) : Except String ℕ :=
  if c.isDigit then .ok (c.toNat - 48)
  else .error ("invalid literal for int() with base 10: '" ++ String.mk [c] ++ "'")

/-- The pandas mask-and-first lookup
`df.loc[(df.Col == c) & (df.Row == r)]` followed by `.iloc[0]`: the first
table row matching the square, if any. -/
def findSquare (table : List CsvRow) (c : Char) (r : ℕ) : Option CsvRow :=
  (table.filter (fun t => t.col == c && t.row == r)).head?

/-- `RobotController.get_move_coordinates`: reject moves shorter than four
characters, parse origin and destination squares, and look each up in the
CSV table, returning the origin's Pick and the destination's Place strings. -/
def get_move_coordinates (table : List CsvRow) (move : String) :
    Except String (String × String) :=
  match move.data with
  | c0 :: c1 :: c2 :: c3 :: _ =>
    match pyIntOfChar c1 with
    | .error e => .error e
    | .ok fromRow =>
      match findSquare table c0 fromRow with
      | none =>
        .error ("Start square '" ++ String.mk [c0, c1] ++ "' not found in mapping file.")
      | some rowFrom =>
        match pyIntOfChar c3 with
        | .error e => .error e
        | .ok toRow =>
          match findSquare table c2 toRow with
          | none =>
            .error ("End square '" ++ String.mk [c2, c3] ++ "' not found in mapping file.")
          | some rowTo => .ok (rowFrom.pick, rowTo.place)
  | _ => .error ("Invalid move format '" ++ move ++ "'. Expected format like 'e2e4'.")

/-- Observable outcome of `execute_robot_move`: whether an exception escaped
to the caller, the waypoint array printed for Simulink (if any), and the
error message printed by the internal handler (if any). -/
structure ExecResult where
  raised : Option String
  printedWaypoints : Option (List String)
  printedError : Option String
  deriving DecidableEq

/-- `RobotController.execute_robot_move`: on success print the six-waypoint
array `[pick, pick, home, place, place, home]`; on a lookup or format error
the internal `except` clause prints `"Error in robot control: ..."` and the
method returns normally (no exception escapes either way). -/
def execute_robot_move (table : List CsvRow) (move : String) : ExecResult :=
  match get_move_coordinates table move with
  | .ok (pick, place) =>
    ⟨none, some [pick, pick, HOME_COORDINATE, place, place, HOME_COORDINATE], none⟩
  | .error e => ⟨none, none, some ("Error in robot control: " ++ e)⟩

/-! ### Orchestrator pass (`main.py`) -/

/-- Observable outcome of one pipeline pass of `main`: whether the engine
adapter was invoked, the move it returned, any error message printed by the
robot step, and whether the pass reached the final success message. -/
structure PassOutcome where
  engineQueried : Bool
  bestMove : Option String
  robotPrintedError : Option String
  completedSuccessfully : Bool
  deriving DecidableEq

/-- One pipeline pass of `main` after image capture, parametrised by the FEN
generation result, the engine adapter (`get_best_move`, which may fail or
return no move), and the coordinate table. Mirrors the control flow of
`main.py`: a FEN error breaks; a FEN missing `'k'` or `'K'` breaks before
the engine; an engine failure or empty move breaks; otherwise the robot step
runs and the pass prints its final success message unless an exception
escaped the robot step. -/
def mainPass (fenResult : Except String String)
    (engine : String → Except String (Option String)) (table : List CsvRow) :
    PassOutcome :=
  match fenResult with
  | .error _ => ⟨false, none, none, false⟩
  | .ok fen =>
    if !(fen.data.contains 'k') || !(fen.data.contains 'K') then ⟨false, none, none, false⟩
    else
      match engine fen with
      | .error _ => ⟨true, none, none, false⟩
      | .ok none => ⟨true, none, none, false⟩
      | .ok (some mv) =>
        match (execute_robot_move table mv).raised with
        | some _ => ⟨true, some mv, (execute_robot_move table mv).printedError, false⟩
        | none => ⟨true, some mv, (execute_robot_move table mv).printedError, true⟩

/-! ### Reference definitions written from the design document's words -/

/-- Reference run-length encoder for one rank, following the design text for
the serializer: accumulate a count of consecutive empty cells, flush the
count (only if positive) before each piece symbol and at the end of the
rank. -/
def specRankGo : List String → ℕ → String
  | [], ec => if ec > 0 then toString ec else ""
  | cell :: rest, ec =>
    if cell = "" then specRankGo rest (ec + 1)
    else (if ec > 0 then toString ec else "") ++ cell ++ specRankGo rest 0

/-- Reference serialization of one rank: run-length encoding of its cells. -/
def specRank (cells : List String) : String := specRankGo cells 0

/-- Reference serializer, following the design text: walk rank 8 down to
rank 1 (file 1 to 8 within a rank), run-length encode each rank, join the
rank strings with `'/'`, then append a space, the active color character,
and the fixed trailer `" - - 0 1"`. -/
def specSerialize (b : Board) (activeColor : Char) : String :=
  String.intercalate "/" (rankRows.map (fun r => specRank (rowCells b r)))
    ++ " " ++ String.mk [activeColor] ++ " - - 0 1"

/-! ### Concrete boards used by the examples -/

/-- Rank 8 of the standard starting arrangement, black home rank. -/
def blackHomeRank (c : Fin 9) : String :=
  if c.val = 1 ∨ c.val = 8 then "r"
  else if c.val = 2 ∨ c.val = 7 then "n"
  else if c.val = 3 ∨ c.val = 6 then "b"
  else if c.val = 4 then "q"
  else if c.val = 5 then "k"
  else ""

/-- Rank 1 of the standard starting arrangement, white home rank. -/
def whiteHomeRank (c : Fin 9) : String :=
  if c.val = 1 ∨ c.val = 8 then "R"
  else if c.val = 2 ∨ c.val = 7 then "N"
  else if c.val = 3 ∨ c.val = 6 then "B"
  else if c.val = 4 then "Q"
  else if c.val = 5 then "K"
  else ""

/-- The standard starting arrangement as a buffer (padding row/column 0
empty). -/
def startingBoard : Board := fun r c =>
  if c.val = 0 then ""
  else if r.val = 8 then blackHomeRank c
  else if r.val = 7 then "p"
  else if r.val = 2 then "P"
  else if r.val = 1 then whiteHomeRank c
  else ""

/-- A board whose only piece is a white pawn at rank 1, file 5. -/
def singlePawnBoard : Board := fun r c =>
  if r.val = 1 ∧ c.val = 5 then "P" else ""

/-! ### Observation helpers and characterisations used in statements -/

/-- The content of one buffer cell after a single square-mapper step (error
if the step raised). -/
def stepCell (bf : BoardFrame) (b : Board) (p : ℚ × ℚ × String) (i j : Fin 9) :
    Except String String :=
  (squareStep bf b p).map (fun b2 => b2 i j)

/-- The `(x, y, w, h)` tuple the detection scan stores for a board box. -/
def tupleOf (d : Detection) : ℚ × ℚ × ℚ × ℚ :=
  (d.xMin, d.yMin, d.xMax - d.xMin, d.yMax - d.yMin)

/-- The last detection labelled `"Chess_Board"` in iteration order. -/
def lastBoard : List Detection → Option Detection
  | [] => none
  | d :: rest =>
    match lastBoard rest with
    | some b => some b
    | none => if d.label = "Chess_Board" then some d else none

/-- Centers and labels of the non-board detections, in iteration order. -/
def pieceCenters (dets : List Detection) : List (ℚ × ℚ × String) :=
  (dets.filter (fun d => !(d.label == "Chess_Board"))).map
    (fun d => (centerX d, centerY d, d.label))

/-! ### Helper lemmas -/

@[simp]
theorem strAppend_assoc (a b c : String) : a ++ b ++ c = a ++ (b ++ c) :=
  String.ext (by simp [String.data_append])

@[simp]
theorem strAppend_empty (s : String) : s ++ "" = s :=
  String.ext (by simp [String.data_append])

@[simp]
theorem strEmpty_append (s : String) : "" ++ s = s :=
  String.ext (by simp [String.data_append])

theorem ratFloor_eq (q : ℚ) : q.floor = ⌊q⌋ :=
  (Rat.floor_def' q).trans Rat.floor_def.symm

theorem pyTrunc_bounds (a w : ℚ) (hw : 0 < w) (h1 : 0 < a) (h2 : a < 8 * w) :
    0 ≤ pyTrunc (a / w) ∧ pyTrunc (a / w) ≤ 7 := by
  have hq : 0 < a / w := div_pos h1 hw
  have hq8 : a / w < 8 := (div_lt_iff₀ hw).mpr (by linarith)
  unfold pyTrunc
  rw [if_neg (not_lt.mpr hq.le), ratFloor_eq]
  have h0 : (0 : ℤ) ≤ ⌊a / w⌋ := Int.floor_nonneg.mpr hq.le
  have h8 : ⌊a / w⌋ < (8 : ℤ) := Int.floor_lt.mpr (by exact_mod_cast hq8)
  omega

/-- C1: for a board frame derived from a positively sized board box and a
piece detection whose center lies strictly inside that box, the computed row
and column indices both lie in 1..8. -/
theorem c1_grid_completeness (bd pd : Detection)
    (hw : bd.xMin < bd.xMax) (hh : bd.yMin < bd.yMax)
    (hx1 : bd.xMin < centerX pd) (hx2 : centerX pd < bd.xMax)
    (hy1 : bd.yMin < centerY pd) (hy2 : centerY pd < bd.yMax) :
    1 ≤ rowIndex (frameOfDet bd) (centerY pd) ∧
    rowIndex (frameOfDet bd) (centerY pd) ≤ 8 ∧
    1 ≤ colIndex (frameOfDet bd) (centerX pd) ∧
    colIndex (frameOfDet bd) (centerX pd) ≤ 8 := by
  have e1 : (8 : ℚ) * ((bd.yMax - bd.yMin) / 8) = bd.yMax - bd.yMin := by ring
  have e2 : (8 : ℚ) * ((bd.xMax - bd.xMin) / 8) = bd.xMax - bd.xMin := by ring
  have hrow := pyTrunc_bounds (centerY pd - bd.yMin) ((bd.yMax - bd.yMin) / 8)
    (by linarith [hh]) (by linarith) (by rw [e1]; linarith)
  have hcol := pyTrunc_bounds (centerX pd - bd.xMin) ((bd.xMax - bd.xMin) / 8)
    (by linarith [hw]) (by linarith) (by rw [e2]; linarith)
  simp only [rowIndex, colIndex, frameOfDet] at *
  omega

/-- Witness for C1 at a concrete board box and piece box. -/
theorem c1_grid_completeness_witness :
    1 ≤ rowIndex (frameOfDet ⟨0, 0, 8, 8, "Chess_Board"⟩)
          (centerY ⟨0, 0, 1, 1, "White_Pawn"⟩) ∧
    rowIndex (frameOfDet ⟨0, 0, 8, 8, "Chess_Board"⟩)
        (centerY ⟨0, 0, 1, 1, "White_Pawn"⟩) ≤ 8 ∧
    1 ≤ colIndex (frameOfDet ⟨0, 0, 8, 8, "Chess_Board"⟩)
          (centerX ⟨0, 0, 1, 1, "White_Pawn"⟩) ∧
    colIndex (frameOfDet ⟨0, 0, 8, 8, "Chess_Board"⟩)
        (centerX ⟨0, 0, 1, 1, "White_Pawn"⟩) ≤ 8 :=
  c1_grid_completeness ⟨0, 0, 8, 8, "Chess_Board"⟩ ⟨0, 0, 1, 1, "White_Pawn"⟩
    (by norm_num) (by norm_num) (by norm_num [centerX]) (by norm_num [centerX])
    (by norm_num [centerY]) (by norm_num [centerY])

theorem npResolve_inbounds (i : ℤ) (h0 : 0 ≤ i) (h9 : i < 9) :
    npResolve i = some ⟨i.toNat, by omega⟩ := by
  unfold npResolve
  rw [dif_pos ⟨h0, h9⟩]

theorem npResolve_oob (i : ℤ) (h : i < -9 ∨ 8 < i) : npResolve i = none := by
  unfold npResolve
  rw [dif_neg (by omega), dif_neg (by omega)]

/-- C2 counterexample: the detection `⟨0, 9, 1, 10, "White_Pawn"⟩` has a
mapped label and computed row index −1 (outside 1..8), yet adding it to a
board-only detection list changes the serialized output: NumPy's negative
indexing wraps the write around to rank 8, file 1. -/
theorem c2_discard_counterexample :
    fenMapping "White_Pawn" = some "P" ∧
    rowIndex (frameOfDet ⟨0, 0, 8, 8, "Chess_Board"⟩)
        (centerY ⟨0, 9, 1, 10, "White_Pawn"⟩) = -1 ∧
    image_to_fen [⟨0, 0, 8, 8, "Chess_Board"⟩, ⟨0, 9, 1, 10, "White_Pawn"⟩] 'w'
      = .ok "P7/8/8/8/8/8/8/8 w - - 0 1" ∧
    image_to_fen [⟨0, 0, 8, 8, "Chess_Board"⟩] 'w'
      = .ok "8/8/8/8/8/8/8/8 w - - 0 1" := by
  refine ⟨rfl, by decide, by rfl, by rfl⟩

/-- C2 amended: a mapped detection whose computed indices are out of 1..8 is
discarded silently exactly when both indices lie in the 9×9 buffer's direct
range 0..8 (so the write lands in the unused padding row or column 0): the
step then succeeds and every grid cell (1..8 × 1..8) is unchanged. When an
index falls outside −9..8 the step instead raises an IndexError. (Indices in
−9..−1 wrap around and can overwrite grid cells, as the counterexample
shows.) -/
theorem c2_discard_amended (bf : BoardFrame) (b : Board) (x y : ℚ) (lbl sym : String)
    (hm : fenMapping lbl = some sym) :
    ((0 ≤ rowIndex bf y ∧ rowIndex bf y ≤ 8 ∧ 0 ≤ colIndex bf x ∧ colIndex bf x ≤ 8 ∧
        (rowIndex bf y = 0 ∨ colIndex bf x = 0)) →
      ∀ i j : Fin 9, 1 ≤ i.val → 1 ≤ j.val →
        stepCell bf b (x, y, lbl) i j = .ok (b i j)) ∧
    ((rowIndex bf y < -9 ∨ 8 < rowIndex bf y ∨ colIndex bf x < -9 ∨ 8 < colIndex bf x) →
      squareStep bf b (x, y, lbl) =
        .error "IndexError: index out of bounds for axis with size 9") := by
  constructor
  · rintro ⟨h0r, h8r, h0c, h8c, hzero⟩ i j hi hj
    unfold stepCell squareStep
    simp only [hm]
    rw [npSet, npResolve_inbounds _ h0r (by omega), npResolve_inbounds _ h0c (by omega)]
    simp only [Except.map]
    congr 1
    unfold setCell
    rw [if_neg]
    rintro ⟨hie, hje⟩
    have h1 : i.val = (rowIndex bf y).toNat := congrArg Fin.val hie
    have h2 : j.val = (colIndex bf x).toNat := congrArg Fin.val hje
    rcases hzero with hz | hz <;> omega
  · intro h
    unfold squareStep
    simp only [hm]
    rw [npSet]
    rcases h with h | h | h | h
    · rw [npResolve_oob _ (Or.inl h)]
    · rw [npResolve_oob _ (Or.inr h)]
    · rw [npResolve_oob (colIndex bf x) (Or.inl h)]
      cases npResolve (rowIndex bf y) <;> rfl
    · rw [npResolve_oob (colIndex bf x) (Or.inr h)]
      cases npResolve (rowIndex bf y) <;> rfl

/-- Witness for the amended C2: a pawn at row index 0 (just above the board)
is discarded into the padding row, and a pawn at row index 9 (just below)
raises an IndexError. -/
theorem c2_discard_amended_witness :
    stepCell (frameOfDet ⟨0, 0, 8, 8, "Chess_Board"⟩) emptyBoard
        (1/2, 17/2, "White_Pawn") 8 1 = .ok "" ∧
    squareStep (frameOfDet ⟨0, 0, 8, 8, "Chess_Board"⟩) emptyBoard
        (1/2, -3/2, "White_Pawn") =
      .error "IndexError: index out of bounds for axis with size 9" :=
  ⟨(c2_discard_amended _ emptyBoard (1/2) (17/2) "White_Pawn" "P" rfl).1
      (by decide) 8 1 (by decide) (by decide),
   (c2_discard_amended _ emptyBoard (1/2) (-3/2) "White_Pawn" "P" rfl).2
      (by decide)⟩

theorem foldl_runStep_eq (cells : List String) :
    ∀ (ec : ℕ) (s : String),
      (fun st : ℕ × String => if st.1 > 0 then st.2 ++ toString st.1 else st.2)
          (cells.foldl runStep (ec, s))
        = s ++ specRankGo cells ec := by
  induction cells with
  | nil =>
    intro ec s
    simp only [List.foldl_nil, specRankGo]
    split
    · rfl
    · exact (strAppend_empty s).symm
  | cons c rest ih =>
    intro ec s
    rw [List.foldl_cons]
    by_cases hc : c = ""
    · subst hc
      rw [show runStep (ec, s) "" = (ec + 1, s) from by simp [runStep]]
      rw [ih]
      simp [specRankGo]
    · by_cases hec : ec > 0
      · rw [show runStep (ec, s) c = (0, s ++ toString ec ++ c) from by
          simp [runStep, hc, hec]]
        rw [ih]
        simp [specRankGo, hc, hec]
      · rw [show runStep (ec, s) c = (0, s ++ c) from by simp [runStep, hc, hec]]
        rw [ih]
        simp [specRankGo, hc, hec]

theorem rankString_eq_specRank (b : Board) (r : Fin 9) :
    rankString b r = specRank (rowCells b r) := by
  have h := foldl_runStep_eq (rowCells b r) 0 ""
  simpa [rankString, specRank] using h

/-- C3: the serializer agrees, on every board and active color, with the
reference run-length algorithm written from the design text; the standard
starting arrangement serializes to the standard board field; a rank whose
only piece is `P` at file 5 serializes to `4P3`. -/
theorem c3_serializer_reference :
    (∀ (b : Board) (c : Char), fenOfBoard b c = specSerialize b c) ∧
    fenBody startingBoard = "rnbqkbnr/pppppppp/8/8/8/8/PPPPPPPP/RNBQKBNR" ∧
    rankString singlePawnBoard 1 = "4P3" := by
  refine ⟨?_, by decide, by decide⟩
  intro b c
  unfold fenOfBoard specSerialize fenBody boardToFenRows
  have h : rankString b = fun r => specRank (rowCells b r) :=
    funext (rankString_eq_specRank b)
  rw [h]

theorem foldl_extractStep_fst (dets : List Detection) :
    ∀ st, (∀ d ∈ dets, d.label ≠ "Chess_Board") →
      (dets.foldl extractStep st).1 = st.1 := by
  induction dets with
  | nil => intro st _; rfl
  | cons d rest ih =>
    intro st h
    rw [List.foldl_cons,
      ih _ (fun e he => h e (List.mem_cons_of_mem _ he))]
    unfold extractStep
    rw [if_neg (h d (List.mem_cons_self _ _))]

/-- C4: a detection list with no `"Chess_Board"` label makes `image_to_fen`
fail with the board-not-found error; no board grid is built and no FEN
string is produced. -/
theorem c4_missing_board (dets : List Detection) (c : Char)
    (h : ∀ d ∈ dets, d.label ≠ "Chess_Board") :
    image_to_fen dets c =
      .error "Chessboard not detected in the image. Cannot generate FEN." := by
  have h1 : (extractDetections dets).1 = none :=
    foldl_extractStep_fst dets (none, []) h
  unfold image_to_fen
  rcases hE : extractDetections dets with ⟨o, ps⟩
  rw [hE] at h1
  simp only at h1
  subst h1
  rfl

/-- Witness for C4: a single pawn detection and no board. -/
theorem c4_missing_board_witness :
    image_to_fen [⟨0, 0, 1, 1, "White_Pawn"⟩] 'w' =
      .error "Chessboard not detected in the image. Cannot generate FEN." :=
  c4_missing_board [⟨0, 0, 1, 1, "White_Pawn"⟩] 'w' (by decide)

/-- C5 counterexample: with an empty coordinate table, looking up the move
`"e2e4"` fails (the start square is not mapped), yet `execute_robot_move`
raises nothing to its caller — it only prints the message — and the pipeline
pass still completes as successful. -/
theorem c5_propagation_counterexample :
    get_move_coordinates [] "e2e4" =
      .error "Start square 'e2' not found in mapping file." ∧
    (execute_robot_move [] "e2e4").raised = none ∧
    (execute_robot_move [] "e2e4").printedError =
      some "Error in robot control: Start square 'e2' not found in mapping file." ∧
    (mainPass (.ok "kK") (fun _ => .ok (some "e2e4")) []).completedSuccessfully
      = true := by
  refine ⟨by rfl, by rfl, by rfl, by rfl⟩

/-- C5 amended: when the coordinate lookup fails (unmapped square or invalid
move format), `execute_robot_move` catches the error inside its own handler,
prints `"Error in robot control: ..."`, and returns normally; the caller
observes no exception and the pipeline pass completes as successful with the
message only recorded in the printed output. -/
theorem c5_propagation_amended (table : List CsvRow) (move e : String)
    (h : get_move_coordinates table move = .error e) :
    execute_robot_move table move =
      ⟨none, none, some ("Error in robot control: " ++ e)⟩ ∧
    ∀ (fen : String) (engine : String → Except String (Option String)),
      fen.data.contains 'k' = true → fen.data.contains 'K' = true →
      engine fen = .ok (some move) →
      mainPass (.ok fen) engine table =
        ⟨true, some move, some ("Error in robot control: " ++ e), true⟩ := by
  have hexec : execute_robot_move table move =
      ⟨none, none, some ("Error in robot control: " ++ e)⟩ := by
    unfold execute_robot_move
    rw [h]
  refine ⟨hexec, ?_⟩
  intro fen engine hk hK heng
  simp only [mainPass, hk, hK, Bool.not_true, Bool.or_self, Bool.false_eq_true,
    if_false, heng, hexec]

/-- Witness for the amended C5 at the empty table and move `"e2e4"`. -/
theorem c5_propagation_amended_witness :
    execute_robot_move [] "e2e4" =
      ⟨none, none,
        some ("Error in robot control: " ++
          "Start square 'e2' not found in mapping file.")⟩ ∧
    mainPass (.ok "kK") (fun _ => .ok (some "e2e4")) [] =
      ⟨true, some "e2e4",
        some ("Error in robot control: " ++
          "Start square 'e2' not found in mapping file."), true⟩ :=
  ⟨(c5_propagation_amended [] "e2e4" _ (by rfl)).1,
   (c5_propagation_amended [] "e2e4" _ (by rfl)).2 "kK"
      (fun _ => .ok (some "e2e4")) (by rfl) (by rfl) rfl⟩

/-- C6: for a move of length at least four (four leading characters plus any
suffix) whose origin and destination squares are present in the coordinate
table, the robot controller emits exactly the waypoint array
`[pick, pick, home, place, place, home]`; if the origin (resp. destination)
square is absent, the lookup fails with the corresponding
square-not-found error. -/
theorem c6_waypoint_sequence (table : List CsvRow) (c0 c1 c2 c3 : Char)
    (rest : List Char) (rF rT : ℕ)
    (h1 : pyIntOfChar c1 = .ok rF) (h3 : pyIntOfChar c3 = .ok rT) :
    (∀ rowFrom rowTo : CsvRow,
        findSquare table c0 rF = some rowFrom →
        findSquare table c2 rT = some rowTo →
        execute_robot_move table (String.mk (c0 :: c1 :: c2 :: c3 :: rest)) =
          ⟨none, some [rowFrom.pick, rowFrom.pick, HOME_COORDINATE,
                       rowTo.place, rowTo.place, HOME_COORDINATE], none⟩) ∧
    (findSquare table c0 rF = none →
        get_move_coordinates table (String.mk (c0 :: c1 :: c2 :: c3 :: rest)) =
          .error ("Start square '" ++ String.mk [c0, c1] ++
            "' not found in mapping file.")) ∧
    (∀ rowFrom : CsvRow, findSquare table c0 rF = some rowFrom →
        findSquare table c2 rT = none →
        get_move_coordinates table (String.mk (c0 :: c1 :: c2 :: c3 :: rest)) =
          .error ("End square '" ++ String.mk [c2, c3] ++
            "' not found in mapping file.")) := by
  refine ⟨?_, ?_, ?_⟩
  · intro rowFrom rowTo hF hT
    unfold execute_robot_move get_move_coordinates
    simp only [h1, h3, hF, hT]
  · intro hF
    unfold get_move_coordinates
    simp only [h1, hF]
  · intro rowFrom hF hT
    unfold get_move_coordinates
    simp only [h1, h3, hF, hT]

/-- Witness for C6 on a two-row table and the move `"e2e4"`. -/
theorem c6_waypoint_sequence_witness :
    execute_robot_move
        [⟨'e', 2, "[0.1; 0.2; 0.3]", "[0.4; 0.5; 0.6]"⟩,
         ⟨'e', 4, "[0.7; 0.8; 0.9]", "[1.0; 1.1; 1.2]"⟩]
        (String.mk ['e', '2', 'e', '4']) =
      ⟨none, some ["[0.1; 0.2; 0.3]", "[0.1; 0.2; 0.3]", HOME_COORDINATE,
                   "[1.0; 1.1; 1.2]", "[1.0; 1.1; 1.2]", HOME_COORDINATE], none⟩ :=
  (c6_waypoint_sequence
      [⟨'e', 2, "[0.1; 0.2; 0.3]", "[0.4; 0.5; 0.6]"⟩,
       ⟨'e', 4, "[0.7; 0.8; 0.9]", "[1.0; 1.1; 1.2]"⟩]
      'e' '2' 'e' '4' [] 2 4 (by rfl) (by rfl)).1
    ⟨'e', 2, "[0.1; 0.2; 0.3]", "[0.4; 0.5; 0.6]"⟩
    ⟨'e', 4, "[0.7; 0.8; 0.9]", "[1.0; 1.1; 1.2]"⟩ (by rfl) (by rfl)

/-- C7: whenever the generated FEN string lacks a `'k'` or lacks a `'K'`
character, the orchestrator pass never invokes the engine adapter. -/
theorem c7_kingless_rejection (fen : String)
    (engine : String → Except String (Option String)) (table : List CsvRow)
    (h : fen.data.contains 'k' = false ∨ fen.data.contains 'K' = false) :
    (mainPass (.ok fen) engine table).engineQueried = false := by
  have h' : 'k' ∉ fen.data ∨ 'K' ∉ fen.data := by
    rcases h with h | h
    · exact Or.inl (by simpa using h)
    · exact Or.inr (by simpa using h)
  unfold mainPass
  simp [h']

/-- Witness for C7: a FEN with no kings at all. -/
theorem c7_kingless_rejection_witness :
    (mainPass (.ok "8/8/8/8/8/8/8/8 w - - 0 1") (fun _ => .ok (some "e2e4"))
        []).engineQueried = false :=
  c7_kingless_rejection "8/8/8/8/8/8/8/8 w - - 0 1" (fun _ => .ok (some "e2e4")) []
    (Or.inl (by rfl))

/-- C8: the Square Mapper plus serializer is deterministic — any two runs on
the same frame, piece list and active color that produce output strings
produce byte-identical ones. -/
theorem c8_determinism (bf : BoardFrame) (pieces : List (ℚ × ℚ × String))
    (c : Char) (s1 s2 : String)
    (h1 : mapAndSerialize bf pieces c = .ok s1)
    (h2 : mapAndSerialize bf pieces c = .ok s2) :
    s1.data = s2.data := by
  rw [h1] at h2
  injection h2 with h
  rw [h]

/-- Witness for C8 on an empty piece list. -/
theorem c8_determinism_witness :
    ("8/8/8/8/8/8/8/8 w - - 0 1").data = ("8/8/8/8/8/8/8/8 w - - 0 1").data :=
  c8_determinism ⟨0, 0, 1, 1⟩ [] 'w' _ _ (by rfl) (by rfl)

theorem lastBoard_none (l : List Detection)
    (h : ∀ e ∈ l, e.label ≠ "Chess_Board") : lastBoard l = none := by
  induction l with
  | nil => rfl
  | cons d rest ih =>
    simp only [lastBoard]
    rw [ih (fun e he => h e (List.mem_cons_of_mem _ he)),
      if_neg (h d (List.mem_cons_self _ _))]

theorem lastBoard_append (pre post : List Detection) (d : Detection)
    (hd : d.label = "Chess_Board") (hpost : ∀ e ∈ post, e.label ≠ "Chess_Board") :
    lastBoard (pre ++ d :: post) = some d := by
  induction pre with
  | nil =>
    simp only [List.nil_append, lastBoard]
    rw [lastBoard_none post hpost, if_pos hd]
  | cons p pre ih =>
    simp only [List.cons_append, lastBoard]
    rw [show pre.append (d :: post) = pre ++ d :: post from rfl, ih]

theorem foldl_extractStep_eq (dets : List Detection) :
    ∀ (a : Option (ℚ × ℚ × ℚ × ℚ)) (l : List (ℚ × ℚ × String)),
      dets.foldl extractStep (a, l) =
        ((match lastBoard dets with
          | some d => some (tupleOf d)
          | none => a), l ++ pieceCenters dets) := by
  induction dets with
  | nil => intro a l; simp [lastBoard, pieceCenters]
  | cons d rest ih =>
    intro a l
    rw [List.foldl_cons]
    by_cases hd : d.label = "Chess_Board"
    · rw [show extractStep (a, l) d = (some (tupleOf d), l) from by
        simp [extractStep, hd, tupleOf]]
      rw [ih]
      have hpc : pieceCenters (d :: rest) = pieceCenters rest := by
        simp [pieceCenters, List.filter_cons, hd]
      rw [hpc]
      cases hLB : lastBoard rest with
      | some b => simp [lastBoard, hLB]
      | none => simp [lastBoard, hLB, hd]
    · rw [show extractStep (a, l) d = (a, l ++ [(centerX d, centerY d, d.label)]) from by
        simp [extractStep, hd]]
      rw [ih]
      have hpc : pieceCenters (d :: rest) =
          (centerX d, centerY d, d.label) :: pieceCenters rest := by
        simp [pieceCenters, List.filter_cons, hd]
      have hLB : lastBoard (d :: rest) = lastBoard rest := by
        cases hL : lastBoard rest <;> simp [lastBoard, hL, hd]
      rw [hpc, hLB]
      simp

/-- C9: when several detections carry the `"Chess_Board"` label, the scan
keeps the board tuple of the last one (earlier board boxes have no effect on
the result), and no board-labelled detection ever enters the piece list
(which is exactly the centers of the non-board detections, in order). -/
theorem c9_last_board_wins (pre post : List Detection) (d : Detection)
    (hd : d.label = "Chess_Board")
    (hpost : ∀ e ∈ post, e.label ≠ "Chess_Board") :
    extractDetections (pre ++ d :: post) =
      (some (tupleOf d), pieceCenters (pre ++ d :: post)) := by
  unfold extractDetections
  rw [foldl_extractStep_eq, lastBoard_append pre post d hd hpost]
  simp

/-- Witness for C9: two board boxes followed by a pawn; the second board box
wins. -/
theorem c9_last_board_wins_witness :
    extractDetections
        [⟨0, 0, 4, 4, "Chess_Board"⟩, ⟨1, 1, 9, 9, "Chess_Board"⟩,
         ⟨0, 0, 1, 1, "White_Pawn"⟩] =
      (some (tupleOf ⟨1, 1, 9, 9, "Chess_Board"⟩),
       pieceCenters
        [⟨0, 0, 4, 4, "Chess_Board"⟩, ⟨1, 1, 9, 9, "Chess_Board"⟩,
         ⟨0, 0, 1, 1, "White_Pawn"⟩]) :=
  c9_last_board_wins [⟨0, 0, 4, 4, "Chess_Board"⟩] [⟨0, 0, 1, 1, "White_Pawn"⟩]
    ⟨1, 1, 9, 9, "Chess_Board"⟩ rfl (by decide)

/-- C10: for moves of length at least four, the robot controller's result
depends only on the first four characters — any suffix (for example a
promotion letter) neither errors nor changes the coordinates. -/
theorem c10_move_suffix_ignored (table : List CsvRow) (c0 c1 c2 c3 : Char)
    (rest : List Char) :
    get_move_coordinates table (String.mk (c0 :: c1 :: c2 :: c3 :: rest)) =
      get_move_coordinates table (String.mk [c0, c1, c2, c3]) ∧
    execute_robot_move table (String.mk (c0 :: c1 :: c2 :: c3 :: rest)) =
      execute_robot_move table (String.mk [c0, c1, c2, c3]) :=
  ⟨rfl, rfl⟩
